import Mathlib

/-!
Shallow embedding of the picmo popup picker controller
(`PopupPickerController`), the option merging function `getOptions`,
and the variant popup view logic, together with theorems checking the
specification's claims against them.

The controller is modelled as a pure state machine: each method becomes a
function from a `ControllerState` to a new state paired with a trace of
`Action`s recording, in order, the observable steps the method performs
(setting `isOpen`, awaiting animations, starting an animation, DOM
insertion or removal, event emission, positioning cleanup and install).
Two semantics are given: an atomic one, where each method invocation is a
single transition whose awaits resolve before it continues (the right
reading for per-invocation guards, postconditions and reachability
invariants), and a segmented async one, where the method bodies are split
at their `await` points so that unawaited invocations can interleave (the
right reading for claims about concurrent animations).
-/

namespace Picmo

/-- A Web Animations API animation on the picker element.  Only the id and
play state matter to the controller (`getRunningAnimations` filters on
`playState === 'running'`). -/
structure Animation where
  id : String
  playState : String
deriving DecidableEq, Repr

/-- The parts of the controller's options that its event handlers consult:
whether a `triggerElement` option was supplied, and the `autoHide`
setting (defaulted to `true` in the constructor). -/
structure ControllerOptions where
  hasTriggerElement : Bool
  autoHide : Bool
deriving DecidableEq, Repr

/-- The mutable state of a `PopupPickerController` together with the
observable state of its environment:
* `isOpen` — the controller's `isOpen` field;
* `popupInDom` — whether `popupEl` is currently attached under `rootElement`;
* `anims` — the animations on `picker.el` (`picker.el.getAnimations()`);
* `positionCleanupField` — the id of the cleanup function stored in
  `this.positionCleanup` (`none` before the first `setPosition`);
* `activeInstalls` — ids of positioning installations whose cleanup has
  not yet been invoked;
* `nextInstallId` — fresh-id counter for positioning installations;
* `emitted` — external events emitted so far, in order;
* `docClickListener` — whether the document click listener is attached;
* `pickerDestroyed` — whether `picker.destroy()` has been called;
* `externalListeners` — the callbacks registered on `externalEvents`,
  as (event name, callback id) pairs. -/
structure ControllerState where
  isOpen : Bool
  popupInDom : Bool
  anims : List Animation
  positionCleanupField : Option Nat
  activeInstalls : List Nat
  nextInstallId : Nat
  emitted : List String
  docClickListener : Bool
  pickerDestroyed : Bool
  externalListeners : List (String × Nat)
  opts : ControllerOptions
deriving DecidableEq, Repr

/-- Observable steps performed by controller methods, recorded in order. -/
inductive Action where
  | setIsOpen (b : Bool)
  | awaitAnimations (ids : List String)
  | appendPopup
  | invokePositionCleanup (id : Option Nat)
  | installPosition (id : Nat)
  | initializePickerView
  | startAnimation (id : String) (runningAtStart : List String)
  | setInitialFocus
  | emitEvent (name : String)
  | removePopup
  | pickerReset
  | invokeClose
  | removeDocListener
  | destroyPicker
  | removeAllExternal
deriving DecidableEq, Repr

/-- `getRunningAnimations`: the animations on the picker element whose play
state is `'running'`. -/
def getRunningAnimations (st : ControllerState) : List Animation :=
  st.anims.filter (fun a => a.playState == "running")

/-- The ids of the currently running animations. -/
def runningAnimIds (st : ControllerState) : List String :=
  (getRunningAnimations st).map (fun a => a.id)

/-- `awaitPendingAnimations`: waits for all running animations on the picker
element to finish.  Afterwards every previously running animation is in the
`'finished'` play state. -/
def awaitPendingAnimations (st : ControllerState) : ControllerState × List Action :=
  ({ st with
      anims := st.anims.map (fun a =>
        if a.playState == "running" then { a with playState := "finished" } else a) },
   [Action.awaitAnimations (runningAnimIds st)])

/-- `initiateOpenStateChange`: marks the new open state immediately, then
waits for pending animations to finish. -/
def initiateOpenStateChange (openState : Bool) (st : ControllerState) :
    ControllerState × List Action :=
  let st1 := { st with isOpen := openState }
  let p := awaitPendingAnimations st1
  (p.1, Action.setIsOpen openState :: p.2)

/-- `animateOpenStateChange`: starts the show/hide animation (id
`'show-picker'` or `'hide-picker'`) on the picker element and awaits its
`finished` promise; once the method returns, the animation has finished.
The trace records which animations were running at the instant the new
animation was started. -/
def animateOpenStateChange (openState : Bool) (st : ControllerState) :
    ControllerState × List Action :=
  let animId := if openState then "show-picker" else "hide-picker"
  ({ st with anims := st.anims ++ [⟨animId, "finished"⟩] },
   [Action.startAnimation animId (runningAnimIds st)])

/-- `setPosition`: invokes the previous positioning cleanup if one is
stored (`this.positionCleanup?.()`), then installs a fresh positioning and
stores its cleanup. -/
def setPositionStep (st : ControllerState) : ControllerState × List Action :=
  let cleaned := match st.positionCleanupField with
    | some i => st.activeInstalls.erase i
    | none => st.activeInstalls
  let newId := st.nextInstallId
  ({ st with
      activeInstalls := cleaned ++ [newId]
      positionCleanupField := some newId
      nextInstallId := newId + 1 },
   [Action.invokePositionCleanup st.positionCleanupField, Action.installPosition newId])

/-- `open()`: returns immediately when already open; otherwise initiates the
open state change, appends the popup element to the root element, sets up
positioning, initializes the picker view, runs the show animation,
re-initializes the view, sets initial focus, and emits `'picker:open'`. -/
def openStep (st : ControllerState) : ControllerState × List Action :=
  if st.isOpen then (st, [])
  else
    let p1 := initiateOpenStateChange true st
    let s2 := { p1.1 with popupInDom := true }
    let p3 := setPositionStep s2
    let p4 := animateOpenStateChange true p3.1
    let s5 := { p4.1 with emitted := p4.1.emitted ++ ["picker:open"] }
    (s5, p1.2 ++ [Action.appendPopup] ++ p3.2 ++ [Action.initializePickerView]
          ++ p4.2 ++ [Action.initializePickerView, Action.setInitialFocus,
                      Action.emitEvent "picker:open"])

/-- `close()`: returns immediately when already closed; otherwise initiates
the open state change to closed, runs the hide animation, removes the popup
element from the DOM, resets the picker, and invokes the positioning
cleanup. -/
def closeStep (st : ControllerState) : ControllerState × List Action :=
  if st.isOpen then
    let p1 := initiateOpenStateChange false st
    let p2 := animateOpenStateChange false p1.1
    let s3 := { p2.1 with popupInDom := false }
    let s4 := { s3 with
      activeInstalls := match s3.positionCleanupField with
        | some i => s3.activeInstalls.erase i
        | none => s3.activeInstalls }
    (s4, p1.2 ++ p2.2 ++ [Action.removePopup, Action.pickerReset,
                          Action.invokePositionCleanup s3.positionCleanupField])
  else (st, [])

/-- A document click event as seen by `onDocumentClick`:
whether `picker.isPickerClick(event)` holds, and whether the click target
lies inside the trigger element's subtree (only meaningful when a trigger
element was supplied). -/
structure ClickEvent where
  isPickerClick : Bool
  targetInTriggerSubtree : Bool
deriving DecidableEq, Repr

/-- `onDocumentClick`: closes the picker when it is open, the click is not
on the picker, and the click target is not the trigger element or one of
its descendants (`this.options.triggerElement?.contains(clickedNode)`). -/
def onDocumentClick (ev : ClickEvent) (st : ControllerState) :
    ControllerState × List Action :=
  let isClickOnTrigger := st.opts.hasTriggerElement && ev.targetInTriggerSubtree
  if st.isOpen && !ev.isPickerClick && !isClickOnTrigger then
    let p := closeStep st
    (p.1, Action.invokeClose :: p.2)
  else (st, [])

/-- `handleKeydown`: closes the picker when the pressed key is `'Escape'`. -/
def handleKeydown (key : String) (st : ControllerState) :
    ControllerState × List Action :=
  if key = "Escape" then
    let p := closeStep st
    (p.1, Action.invokeClose :: p.2)
  else (st, [])

/-- `destroy()`: closes the picker first when it is open, then removes the
document click listener, destroys the inner picker, and removes all
registered external event listeners. -/
def destroyStep (st : ControllerState) : ControllerState × List Action :=
  let p1 := if st.isOpen then
      let p := closeStep st
      (p.1, Action.invokeClose :: p.2)
    else (st, [])
  ({ p1.1 with
      docClickListener := false
      pickerDestroyed := true
      externalListeners := [] },
   p1.2 ++ [Action.removeDocListener, Action.destroyPicker, Action.removeAllExternal])

/-- A click dispatched on the document: it reaches `onDocumentClick` only
while the document click listener is attached. -/
def dispatchDocumentClick (ev : ClickEvent) (st : ControllerState) :
    ControllerState × List Action :=
  if st.docClickListener then onDocumentClick ev st else (st, [])

/-- Emitting an external event: the ids of the callbacks that are invoked
(those registered for this event name on `externalEvents`). -/
def emitExternal (name : String) (st : ControllerState) : List Nat :=
  (st.externalListeners.filter (fun p => p.1 == name)).map (fun p => p.2)

/-- The operations that can act on a live controller. -/
inductive Op where
  | openOp
  | closeOp
  | toggleOp
  | docClick (ev : ClickEvent)
  | keydown (key : String)
  | selectEmoji
  | destroyOp
  | onExternal (name : String) (cb : Nat)
deriving DecidableEq, Repr

/-- One controller operation, as a state transition. -/
def step (st : ControllerState) (op : Op) : ControllerState :=
  match op with
  | Op.openOp => (openStep st).1
  | Op.closeOp => (closeStep st).1
  | Op.toggleOp => if st.isOpen then (closeStep st).1 else (openStep st).1
  | Op.docClick ev => (dispatchDocumentClick ev st).1
  | Op.keydown k => (handleKeydown k st).1
  | Op.selectEmoji => if st.opts.autoHide then (closeStep st).1 else st
  | Op.destroyOp => (destroyStep st).1
  | Op.onExternal n cb =>
      { st with externalListeners := st.externalListeners ++ [(n, cb)] }

/-- The controller state right after the constructor runs: closed, popup
element detached, no animations, no positioning, document click listener
attached. -/
def initialState (opts : ControllerOptions) : ControllerState :=
  { isOpen := false
    popupInDom := false
    anims := []
    positionCleanupField := none
    activeInstalls := []
    nextInstallId := 0
    emitted := []
    docClickListener := true
    pickerDestroyed := false
    externalListeners := []
    opts := opts }

/-- Running a sequence of operations from the initial state. -/
def runOps (opts : ControllerOptions) (ops : List Op) : ControllerState :=
  ops.foldl step (initialState opts)

/-- Positioning invariant: when the picker is closed, no positioning
installation is active; when it is open, exactly one is active and it is
the one stored in `positionCleanupField`. -/
def PosInv (st : ControllerState) : Prop :=
  (st.isOpen = false ∧ st.activeInstalls = []) ∨
  (st.isOpen = true ∧ ∃ i, st.activeInstalls = [i] ∧ st.positionCleanupField = some i)

/-- DOM invariant: when the picker is closed, the popup element is not in
the DOM. -/
def DomInv (st : ControllerState) : Prop :=
  st.isOpen = false → st.popupInDom = false

/-- Invariant maintained by every controller operation. -/
def Inv (st : ControllerState) : Prop := PosInv st ∧ DomInv st

/-- Sample options: a trigger element was supplied and `autoHide` is on. -/
def sampleOpts : ControllerOptions := { hasTriggerElement := true, autoHide := true }

/-- A freshly constructed (closed) controller. -/
def sampleClosed : ControllerState := initialState sampleOpts

/-- A controller that has been opened once. -/
def sampleOpen : ControllerState := (openStep sampleClosed).1

/-- A click outside both the picker and the trigger element. -/
def sampleClick : ClickEvent := { isPickerClick := false, targetInTriggerSubtree := false }

/-! ### Interleaved (async) semantics of `open()` and `close()`

The atomic model above gives each method invocation as one transition, with
its awaits resolving in between.  The real methods are `async` and can
interleave at their `await` points when invoked without awaiting the
returned promise.  To analyse this, the method bodies are split into
segments at their `await` points: invoking a method runs its first segment
and suspends; a suspended task may resume (running its next segment) once
every animation whose `finished` promise it awaits has stopped running.
Resumption order between ready tasks follows the microtask queue: tasks
become ready in the order they suspended. -/

/-- A suspension point inside `open()` or `close()`:
* `openAfterInitiate` — `open()` suspended at the `await` inside
  `initiateOpenStateChange` (line 99);
* `openAfterAnimate` — `open()` suspended awaiting the show animation's
  `finished` promise (line 104);
* `closeAfterInitiate` — `close()` suspended at the `await` inside
  `initiateOpenStateChange` (line 120);
* `closeAfterAnimate` — `close()` suspended awaiting the hide animation's
  `finished` promise (line 121). -/
inductive TaskPC where
  | openAfterInitiate
  | openAfterAnimate
  | closeAfterInitiate
  | closeAfterAnimate
deriving DecidableEq, Repr

/-- The result of running one segment of an async method: the new state,
the actions performed, and — when the segment ended at an `await` — the
next program counter together with the ids of the animations whose
`finished` promises are awaited. -/
structure AsyncResult where
  state : ControllerState
  actions : List Action
  suspended : Option (TaskPC × List String)
deriving DecidableEq, Repr

/-- A suspended task may resume only when none of the animations it awaits
is still running (their `finished` promises have resolved). -/
def canResume (awaited : List String) (st : ControllerState) : Bool :=
  awaited.all (fun i => !(runningAnimIds st).contains i)

/-- Invoking `open()`: when already open it returns at once; otherwise the
first segment sets `isOpen := true` and suspends awaiting the snapshot of
currently running animations (`initiateOpenStateChange`, lines 212-215). -/
def invokeOpenAsync (st : ControllerState) : AsyncResult :=
  if st.isOpen then { state := st, actions := [], suspended := none }
  else
    let st1 := { st with isOpen := true }
    { state := st1
      actions := [Action.setIsOpen true, Action.awaitAnimations (runningAnimIds st1)]
      suspended := some (TaskPC.openAfterInitiate, runningAnimIds st1) }

/-- Invoking `close()`: when already closed it returns at once; otherwise
the first segment sets `isOpen := false` and suspends awaiting the snapshot
of currently running animations. -/
def invokeCloseAsync (st : ControllerState) : AsyncResult :=
  if st.isOpen then
    let st1 := { st with isOpen := false }
    { state := st1
      actions := [Action.setIsOpen false, Action.awaitAnimations (runningAnimIds st1)]
      suspended := some (TaskPC.closeAfterInitiate, runningAnimIds st1) }
  else { state := st, actions := [], suspended := none }

/-- Resuming a suspended `open()` or `close()` at its program counter.
Unlike the atomic model, starting an animation leaves it in the
`'running'` play state; it finishes with the passage of time, not with the
segment. -/
def resumeTask (pc : TaskPC) (st : ControllerState) : AsyncResult :=
  match pc with
  | TaskPC.openAfterInitiate =>
      let st1 := { st with popupInDom := true }
      let p2 := setPositionStep st1
      let st3 := { p2.1 with anims := p2.1.anims ++ [⟨"show-picker", "running"⟩] }
      { state := st3
        actions := [Action.appendPopup] ++ p2.2
          ++ [Action.initializePickerView,
              Action.startAnimation "show-picker" (runningAnimIds p2.1)]
        suspended := some (TaskPC.openAfterAnimate, ["show-picker"]) }
  | TaskPC.openAfterAnimate =>
      { state := { st with emitted := st.emitted ++ ["picker:open"] }
        actions := [Action.initializePickerView, Action.setInitialFocus,
                    Action.emitEvent "picker:open"]
        suspended := none }
  | TaskPC.closeAfterInitiate =>
      let st1 := { st with anims := st.anims ++ [⟨"hide-picker", "running"⟩] }
      { state := st1
        actions := [Action.startAnimation "hide-picker" (runningAnimIds st)]
        suspended := some (TaskPC.closeAfterAnimate, ["hide-picker"]) }
  | TaskPC.closeAfterAnimate =>
      let st1 := { st with popupInDom := false }
      { state := { st1 with
          activeInstalls := match st1.positionCleanupField with
            | some i => st1.activeInstalls.erase i
            | none => st1.activeInstalls }
        actions := [Action.removePopup, Action.pickerReset,
                    Action.invokePositionCleanup st1.positionCleanupField]
        suspended := none }

/-- Rapid toggle, step 1: `open()` is invoked on a fresh controller and
suspends; its awaited set is empty (no animations exist yet). -/
def rtStep1 : AsyncResult := invokeOpenAsync sampleClosed

/-- Rapid toggle, step 2: `close()` is invoked synchronously afterwards —
without awaiting the promise of `open()` — passes its `isOpen` guard, and
suspends; its awaited snapshot is empty because the show animation has not
started yet. -/
def rtStep2 : AsyncResult := invokeCloseAsync rtStep1.state

/-- Rapid toggle, step 3: `open()` resumes first (it suspended first and
awaits nothing) and starts the `'show-picker'` animation. -/
def rtStep3 : AsyncResult := resumeTask TaskPC.openAfterInitiate rtStep2.state

/-- Rapid toggle, step 4: `close()` resumes (it awaits nothing either) and
starts the `'hide-picker'` animation while `'show-picker'` is still
running. -/
def rtStep4 : AsyncResult := resumeTask TaskPC.closeAfterInitiate rtStep3.state

/-- The actions of the rapid-toggle schedule, in order. -/
def rapidToggleTrace : List Action :=
  rtStep1.actions ++ rtStep2.actions ++ rtStep3.actions ++ rtStep4.actions

/-! ### Picker options (`options.ts`) -/

/-- The `emojiVersion` option: a specific version number or `'auto'`. -/
inductive EmojiVersionOpt where
  | auto
  | version (n : Nat)
deriving DecidableEq, Repr

/-- A DOM element reference; `documentBody` stands for `document.body`. -/
inductive DomElement where
  | documentBody
  | element (id : Nat)
deriving DecidableEq, Repr

/-- A renderer instance; the default is a fresh `NativeRenderer`. -/
inductive RendererOpt where
  | nativeRenderer
  | otherRenderer (id : Nat)
deriving DecidableEq, Repr

/-- A theme class name; the default is `lightTheme`. -/
inductive ThemeOpt where
  | lightTheme
  | darkTheme
  | autoTheme
  | otherTheme (id : Nat)
deriving DecidableEq, Repr

/-- An i18n dictionary; the default is the built-in English strings `en`. -/
inductive DictionaryOpt where
  | en
  | otherDict (id : Nat)
deriving DecidableEq, Repr

/-- A `Partial<PickerOptions>` object: each property is either supplied by
the caller (`some`) or omitted (`none`).  Custom emojis are abstracted to
ids. -/
structure PartialPickerOptions where
  renderer : Option RendererOpt := none
  theme : Option ThemeOpt := none
  animate : Option Bool := none
  showSearch : Option Bool := none
  showCategoryTabs : Option Bool := none
  showVariants : Option Bool := none
  showRecents : Option Bool := none
  showPreview : Option Bool := none
  emojisPerRow : Option Nat := none
  visibleRows : Option Nat := none
  emojiVersion : Option EmojiVersionOpt := none
  maxRecents : Option Nat := none
  i18n : Option DictionaryOpt := none
  locale : Option String := none
  custom : Option (List Nat) := none
  rootElement : Option DomElement := none
deriving DecidableEq, Repr

/-- A fully resolved `PickerOptions` object. -/
structure PickerOptions where
  renderer : RendererOpt
  theme : ThemeOpt
  animate : Bool
  showSearch : Bool
  showCategoryTabs : Bool
  showVariants : Bool
  showRecents : Bool
  showPreview : Bool
  emojisPerRow : Nat
  visibleRows : Nat
  emojiVersion : EmojiVersionOpt
  maxRecents : Nat
  i18n : DictionaryOpt
  locale : String
  custom : List Nat
  rootElement : DomElement
deriving DecidableEq, Repr

/-- `getOptions`: spreads `defaultOptions`, then `rootElement:
document.body`, then the caller's options; a caller-supplied property
wins, an omitted one takes the default. -/
def getOptions (options : PartialPickerOptions) : PickerOptions :=
  { renderer := options.renderer.getD RendererOpt.nativeRenderer
    theme := options.theme.getD ThemeOpt.lightTheme
    animate := options.animate.getD true
    showSearch := options.showSearch.getD true
    showCategoryTabs := options.showCategoryTabs.getD true
    showVariants := options.showVariants.getD true
    showRecents := options.showRecents.getD true
    showPreview := options.showPreview.getD true
    emojisPerRow := options.emojisPerRow.getD 8
    visibleRows := options.visibleRows.getD 6
    emojiVersion := options.emojiVersion.getD EmojiVersionOpt.auto
    maxRecents := options.maxRecents.getD 50
    i18n := options.i18n.getD DictionaryOpt.en
    locale := options.locale.getD "en"
    custom := options.custom.getD []
    rootElement := options.rootElement.getD DomElement.documentBody }

/-- A sample partial options object supplying some properties. -/
def samplePartialOptions : PartialPickerOptions :=
  { emojisPerRow := some 10
    animate := some false
    rootElement := some (DomElement.element 5) }

/-! ### Variant popup (`VariantPopup`) -/

/-- An emoji skin variant from an `EmojiRecord`: a label and the variant
emoji character. -/
structure EmojiVariant where
  label : String
  emoji : String
deriving DecidableEq, Repr

/-- An emoji record: the base emoji character, its label, and its skin
variants. -/
structure EmojiRecord where
  emoji : String
  label : String
  skins : List EmojiVariant
deriving DecidableEq, Repr

/-- Modelled from the spec: the `VariantPopup` view source is missing from
the repository snapshot (only its tests are present).  Per the spec it
renders an emoji and its variants as a row of buttons: the base emoji
first, then each skin variant in the order it appears in the record.
Each button is represented by the emoji character it contains. -/
def variantPopupButtons (record : EmojiRecord) : List String :=
  record.emoji :: record.skins.map (fun s => s.emoji)

/-- Modelled from the spec: the `VariantPopup` keyboard handler is missing
from the repository snapshot; the spec describes it as "arrow-key cycling
through a small fixed list".  With `n` focusable buttons and focus on
button `i`, ArrowRight moves focus to the next button, cycling from the
last back to the first, ArrowLeft to the previous button, cycling from
the first back to the last, and any other key leaves focus unchanged. -/
def variantFocusAfterKey (key : String) (n i : Nat) : Nat :=
  if key = "ArrowRight" then (if i + 1 < n then i + 1 else 0)
  else if key = "ArrowLeft" then (if i = 0 then n - 1 else i - 1)
  else i

/-- The emoji record used in the `VariantPopup` tests. -/
def sampleEmojiRecord : EmojiRecord :=
  { emoji := "👍"
    label := "thumbs"
    skins := [{ label := "thumbs up1", emoji := "👍🏼" },
              { label := "thumbs up2", emoji := "👍🏿" }] }

/-! ### Helper lemmas about the controller methods -/

/-- After awaiting pending animations, no animation on the picker element is
in the running play state. -/
lemma getRunningAnimations_await (st : ControllerState) :
    getRunningAnimations (awaitPendingAnimations st).1 = [] := by
  simp only [getRunningAnimations, awaitPendingAnimations]
  rw [List.filter_eq_nil_iff]
  intro a ha
  rcases List.mem_map.mp ha with ⟨b, hb, rfl⟩
  by_cases h : b.playState == "running" <;> simp_all

/-- `close()` on a closed picker is the identity and performs no actions. -/
lemma closeStep_of_closed (st : ControllerState) (h : st.isOpen = false) :
    closeStep st = (st, []) := by
  simp [closeStep, h]

/-- `open()` on an open picker is the identity and performs no actions. -/
lemma openStep_of_open (st : ControllerState) (h : st.isOpen = true) :
    openStep st = (st, []) := by
  simp [openStep, h]

/-- After `close()`, the controller is closed. -/
lemma closeStep_isOpen (st : ControllerState) : (closeStep st).1.isOpen = false := by
  by_cases h : st.isOpen = true
  · simp [closeStep, h, initiateOpenStateChange, awaitPendingAnimations, animateOpenStateChange]
  · simp only [Bool.not_eq_true] at h
    rw [closeStep_of_closed st h, h]

/-- `close()` never records an `invokeClose` action of its own. -/
lemma invokeClose_not_mem_closeStep (st : ControllerState) :
    Action.invokeClose ∉ (closeStep st).2 := by
  by_cases h : st.isOpen = true
  · simp [closeStep, h, initiateOpenStateChange, awaitPendingAnimations, animateOpenStateChange]
  · simp only [Bool.not_eq_true] at h
    rw [closeStep_of_closed st h]
    simp

/-- The action trace of `close()` on an open picker: the open state is set
first, then pending animations are awaited; the hide animation starts with
no other animation running; the popup is removed before the positioning
cleanup is invoked. -/
lemma closeStep_trace (st : ControllerState) (h : st.isOpen = true) :
    (closeStep st).2 =
      [Action.setIsOpen false, Action.awaitAnimations (runningAnimIds st),
       Action.startAnimation "hide-picker" [], Action.removePopup, Action.pickerReset,
       Action.invokePositionCleanup st.positionCleanupField] := by
  have hrun : getRunningAnimations
      (awaitPendingAnimations { st with isOpen := false }).1 = [] :=
    getRunningAnimations_await _
  simp only [closeStep, h, if_true, initiateOpenStateChange, animateOpenStateChange,
    runningAnimIds, hrun]
  simp [awaitPendingAnimations, runningAnimIds, getRunningAnimations]

/-- The action trace of `open()` on a closed picker: the open state is set
first, then pending animations are awaited; the popup is appended and
positioned; the show animation starts with no other animation running;
then the view is initialized, focus set, and `'picker:open'` emitted. -/
lemma openStep_trace (st : ControllerState) (h : st.isOpen = false) :
    (openStep st).2 =
      [Action.setIsOpen true, Action.awaitAnimations (runningAnimIds st),
       Action.appendPopup, Action.invokePositionCleanup st.positionCleanupField,
       Action.installPosition st.nextInstallId, Action.initializePickerView,
       Action.startAnimation "show-picker" [], Action.initializePickerView,
       Action.setInitialFocus, Action.emitEvent "picker:open"] := by
  have hrun : getRunningAnimations
      (awaitPendingAnimations { st with isOpen := true }).1 = [] :=
    getRunningAnimations_await _
  simp only [openStep, h, Bool.false_eq_true, if_false, initiateOpenStateChange,
    setPositionStep, animateOpenStateChange, runningAnimIds, hrun]
  simp [awaitPendingAnimations, runningAnimIds, getRunningAnimations]
  intro a ha
  by_cases hp : a.playState = "running" <;> simp [hp]

/-- The state reached by `open()` from a closed state, in full. -/
lemma openStep_state (st : ControllerState) (h : st.isOpen = false) :
    (openStep st).1 =
      { st with
          isOpen := true
          popupInDom := true
          anims := (st.anims.map fun a =>
              if a.playState == "running" then { a with playState := "finished" } else a)
            ++ [⟨"show-picker", "finished"⟩]
          activeInstalls := (match st.positionCleanupField with
            | some i => st.activeInstalls.erase i
            | none => st.activeInstalls) ++ [st.nextInstallId]
          positionCleanupField := some st.nextInstallId
          nextInstallId := st.nextInstallId + 1
          emitted := st.emitted ++ ["picker:open"] } := by
  simp only [openStep, h, Bool.false_eq_true, if_false, initiateOpenStateChange,
    setPositionStep, animateOpenStateChange, awaitPendingAnimations]
  simp

/-- The state reached by `close()` from an open state, in full. -/
lemma closeStep_state (st : ControllerState) (h : st.isOpen = true) :
    (closeStep st).1 =
      { st with
          isOpen := false
          popupInDom := false
          anims := (st.anims.map fun a =>
              if a.playState == "running" then { a with playState := "finished" } else a)
            ++ [⟨"hide-picker", "finished"⟩]
          activeInstalls := match st.positionCleanupField with
            | some i => st.activeInstalls.erase i
            | none => st.activeInstalls } := by
  simp only [closeStep, h, if_true, initiateOpenStateChange,
    animateOpenStateChange, awaitPendingAnimations]
  simp

/-! ### Reachability invariants -/

lemma inv_initial (opts : ControllerOptions) : Inv (initialState opts) := by
  constructor
  · exact Or.inl ⟨rfl, rfl⟩
  · intro _; rfl

lemma inv_openStep (st : ControllerState) (h : Inv st) : Inv (openStep st).1 := by
  by_cases ho : st.isOpen = true
  · rw [openStep_of_open st ho]; exact h
  · simp only [Bool.not_eq_true] at ho
    rw [openStep_state st ho]
    rcases h with ⟨hp, _⟩
    constructor
    · refine Or.inr ⟨rfl, st.nextInstallId, ?_, rfl⟩
      rcases hp with ⟨_, hact⟩ | ⟨habs, _⟩
      · rw [hact]
        cases st.positionCleanupField <;> simp
      · rw [ho] at habs; cases habs
    · intro hco; cases hco

lemma inv_closeStep (st : ControllerState) (h : Inv st) : Inv (closeStep st).1 := by
  by_cases ho : st.isOpen = true
  · rw [closeStep_state st ho]
    rcases h with ⟨hp, _⟩
    constructor
    · refine Or.inl ⟨rfl, ?_⟩
      rcases hp with ⟨habs, _⟩ | ⟨_, i, hact, hfld⟩
      · rw [ho] at habs; cases habs
      · rw [hfld, hact]; simp
    · intro _; rfl
  · simp only [Bool.not_eq_true] at ho
    rw [closeStep_of_closed st ho]; exact h

/-- `Inv` only depends on the open state, popup attachment, active
installations and cleanup field. -/
lemma inv_of_fields (s t : ControllerState)
    (h1 : t.isOpen = s.isOpen) (h2 : t.popupInDom = s.popupInDom)
    (h3 : t.activeInstalls = s.activeInstalls)
    (h4 : t.positionCleanupField = s.positionCleanupField)
    (h : Inv s) : Inv t := by
  rcases h with ⟨hp, hd⟩
  constructor
  · rcases hp with ⟨ha, hb⟩ | ⟨ha, i, hb, hc⟩
    · exact Or.inl ⟨h1.trans ha, h3.trans hb⟩
    · exact Or.inr ⟨h1.trans ha, i, h3.trans hb, h4.trans hc⟩
  · intro hc
    rw [h2]
    exact hd (h1.symm.trans hc)

lemma inv_step (st : ControllerState) (op : Op) (h : Inv st) : Inv (step st op) := by
  cases op with
  | openOp => exact inv_openStep st h
  | closeOp => exact inv_closeStep st h
  | toggleOp =>
      show Inv (if st.isOpen = true then (closeStep st).1 else (openStep st).1)
      by_cases ho : st.isOpen = true
      · rw [if_pos ho]; exact inv_closeStep st h
      · rw [if_neg ho]; exact inv_openStep st h
  | docClick ev =>
      show Inv (dispatchDocumentClick ev st).1
      rw [dispatchDocumentClick]
      by_cases hl : st.docClickListener = true
      · rw [if_pos hl, onDocumentClick]
        by_cases hc : (st.isOpen && !ev.isPickerClick
            && !(st.opts.hasTriggerElement && ev.targetInTriggerSubtree)) = true
        · simp only [hc, if_true]
          exact inv_closeStep st h
        · simp only [hc, if_false]
          exact h
      · rw [if_neg hl]; exact h
  | keydown k =>
      show Inv (handleKeydown k st).1
      rw [handleKeydown]
      by_cases hk : k = "Escape"
      · simp only [hk, if_true]
        exact inv_closeStep st h
      · rw [if_neg hk]; exact h
  | selectEmoji =>
      show Inv (if st.opts.autoHide = true then (closeStep st).1 else st)
      by_cases ha : st.opts.autoHide = true
      · rw [if_pos ha]; exact inv_closeStep st h
      · rw [if_neg ha]; exact h
  | destroyOp =>
      show Inv (destroyStep st).1
      rw [destroyStep]
      by_cases ho : st.isOpen = true
      · simp only [ho, if_true]
        exact inv_of_fields (closeStep st).1 _ rfl rfl rfl rfl (inv_closeStep st h)
      · rw [if_neg ho]
        exact inv_of_fields st _ rfl rfl rfl rfl h
  | onExternal n cb =>
      exact inv_of_fields st _ rfl rfl rfl rfl h

lemma inv_foldl (ops : List Op) (st : ControllerState) (h : Inv st) :
    Inv (ops.foldl step st) := by
  induction ops generalizing st with
  | nil => exact h
  | cons op rest ih => exact ih (step st op) (inv_step st op h)

/-- Every state reachable from the constructor satisfies the invariant. -/
lemma inv_runOps (opts : ControllerOptions) (ops : List Op) :
    Inv (runOps opts ops) :=
  inv_foldl ops (initialState opts) (inv_initial opts)

/-! ### Helper lemmas about destroy and the click guard -/

lemma destroyStep_isOpen (st : ControllerState) : (destroyStep st).1.isOpen = false := by
  show (if st.isOpen = true
      then ((closeStep st).1, Action.invokeClose :: (closeStep st).2)
      else (st, [])).1.isOpen = false
  by_cases ho : st.isOpen = true
  · rw [if_pos ho]; exact closeStep_isOpen st
  · rw [if_neg ho]
    simpa using ho

lemma destroyStep_popup (st : ControllerState) (h : Inv st) :
    (destroyStep st).1.popupInDom = false := by
  show (if st.isOpen = true
      then ((closeStep st).1, Action.invokeClose :: (closeStep st).2)
      else (st, [])).1.popupInDom = false
  by_cases ho : st.isOpen = true
  · rw [if_pos ho, closeStep_state st ho]
  · rw [if_neg ho]
    exact h.2 (by simpa using ho)

lemma destroyStep_trace_open (st : ControllerState) (h : st.isOpen = true) :
    (destroyStep st).2 = (Action.invokeClose :: (closeStep st).2)
      ++ [Action.removeDocListener, Action.destroyPicker, Action.removeAllExternal] := by
  show (if st.isOpen = true
      then ((closeStep st).1, Action.invokeClose :: (closeStep st).2)
      else (st, [])).2
    ++ [Action.removeDocListener, Action.destroyPicker, Action.removeAllExternal] = _
  rw [if_pos h]

lemma destroyStep_trace_closed (st : ControllerState) (h : st.isOpen = false) :
    (destroyStep st).2 =
      [Action.removeDocListener, Action.destroyPicker, Action.removeAllExternal] := by
  show (if st.isOpen = true
      then ((closeStep st).1, Action.invokeClose :: (closeStep st).2)
      else (st, [])).2
    ++ [Action.removeDocListener, Action.destroyPicker, Action.removeAllExternal] = _
  rw [if_neg (by simp [h])]
  simp

/-- The guard of `onDocumentClick`, as a proposition. -/
lemma clickGuard_iff (ev : ClickEvent) (st : ControllerState) :
    (st.isOpen && !ev.isPickerClick
        && !(st.opts.hasTriggerElement && ev.targetInTriggerSubtree)) = true ↔
      (st.isOpen = true ∧ ev.isPickerClick = false ∧
        ¬(st.opts.hasTriggerElement = true ∧ ev.targetInTriggerSubtree = true)) := by
  cases hO : st.isOpen <;> cases hP : ev.isPickerClick <;>
    cases hT : st.opts.hasTriggerElement <;> cases hI : ev.targetInTriggerSubtree <;> simp

/-! ### Claims about the popup controller -/

/-- C1: a document click while the controller exists invokes `close()` if
and only if the picker is open, the click is not a picker click, and the
click target is not the trigger element or one of its descendants. -/
theorem document_click_invokes_close_iff (ev : ClickEvent) (st : ControllerState) :
    Action.invokeClose ∈ (onDocumentClick ev st).2 ↔
      (st.isOpen = true ∧ ev.isPickerClick = false ∧
        ¬(st.opts.hasTriggerElement = true ∧ ev.targetInTriggerSubtree = true)) := by
  rw [onDocumentClick]
  by_cases hc : (st.isOpen && !ev.isPickerClick
      && !(st.opts.hasTriggerElement && ev.targetInTriggerSubtree)) = true
  · rw [if_pos hc]
    show Action.invokeClose ∈ Action.invokeClose :: (closeStep st).2 ↔ _
    exact iff_of_true (List.mem_cons_self _ _) ((clickGuard_iff ev st).mp hc)
  · rw [if_neg hc]
    show Action.invokeClose ∈ ([] : List Action) ↔ _
    exact iff_of_false (List.not_mem_nil _) (fun hr => hc ((clickGuard_iff ev st).mpr hr))

/-- Witness for C1 at a concrete open controller and an outside click. -/
theorem document_click_invokes_close_iff_witness :
    Action.invokeClose ∈ (onDocumentClick sampleClick sampleOpen).2 :=
  (document_click_invokes_close_iff sampleClick sampleOpen).mpr (by decide)

/-- C2, amended: `initiateOpenStateChange` sets `isOpen` to the target
state first and then awaits every animation running at that moment, and in
an isolated (non-interleaved) invocation of `open()` or `close()` the
show/hide animation starts with an empty set of running animations, so it
does not run concurrently with a previously started animation.  The
original claim's unconditional "never runs concurrently" is false under
interleaved unawaited invocations: see
`rapid_toggle_concurrent_animation`. -/
theorem open_close_animation_sequencing (st : ControllerState) (b : Bool) :
    ((initiateOpenStateChange b st).1.isOpen = b) ∧
    (getRunningAnimations (initiateOpenStateChange b st).1 = []) ∧
    (st.isOpen = false →
      (openStep st).2 =
        [Action.setIsOpen true, Action.awaitAnimations (runningAnimIds st),
         Action.appendPopup, Action.invokePositionCleanup st.positionCleanupField,
         Action.installPosition st.nextInstallId, Action.initializePickerView,
         Action.startAnimation "show-picker" [], Action.initializePickerView,
         Action.setInitialFocus, Action.emitEvent "picker:open"]) ∧
    (st.isOpen = true →
      (closeStep st).2 =
        [Action.setIsOpen false, Action.awaitAnimations (runningAnimIds st),
         Action.startAnimation "hide-picker" [], Action.removePopup, Action.pickerReset,
         Action.invokePositionCleanup st.positionCleanupField]) :=
  ⟨rfl, getRunningAnimations_await _, openStep_trace st, closeStep_trace st⟩

/-- Witness for C2 at concrete closed and open controllers. -/
theorem open_close_animation_sequencing_witness :
    sampleClosed.isOpen = false ∧
    (openStep sampleClosed).2 =
      [Action.setIsOpen true, Action.awaitAnimations (runningAnimIds sampleClosed),
       Action.appendPopup, Action.invokePositionCleanup sampleClosed.positionCleanupField,
       Action.installPosition sampleClosed.nextInstallId, Action.initializePickerView,
       Action.startAnimation "show-picker" [], Action.initializePickerView,
       Action.setInitialFocus, Action.emitEvent "picker:open"] ∧
    sampleOpen.isOpen = true ∧
    (closeStep sampleOpen).2 =
      [Action.setIsOpen false, Action.awaitAnimations (runningAnimIds sampleOpen),
       Action.startAnimation "hide-picker" [], Action.removePopup, Action.pickerReset,
       Action.invokePositionCleanup sampleOpen.positionCleanupField] :=
  ⟨by decide,
   (open_close_animation_sequencing sampleClosed true).2.2.1 (by decide),
   by decide,
   (open_close_animation_sequencing sampleOpen true).2.2.2 (by decide)⟩

/-- C2, counterexample: under the async segment semantics, invoking
`open()` and then `close()` synchronously (without awaiting) on a fresh
controller gives a legal schedule — both tasks suspend awaiting the empty
set of animations, and resume in the order they suspended — in which the
`'hide-picker'` animation is started while `'show-picker'` is still in the
`'running'` play state.  The show/hide animation therefore can run
concurrently with a previously started animation on the picker element,
refuting the claim's unconditional conclusion. -/
theorem rapid_toggle_concurrent_animation :
    rtStep1.suspended = some (TaskPC.openAfterInitiate, []) ∧
    rtStep2.suspended = some (TaskPC.closeAfterInitiate, []) ∧
    canResume [] rtStep2.state = true ∧
    canResume [] rtStep3.state = true ∧
    runningAnimIds rtStep3.state = ["show-picker"] ∧
    Action.startAnimation "hide-picker" ["show-picker"] ∈ rapidToggleTrace := by
  decide

/-- C3: from a closed state, `open()` leaves the controller open with the
popup appended and `'picker:open'` emitted; from an open state, `close()`
leaves the controller closed with the popup removed from the DOM. -/
theorem open_close_postconditions (st : ControllerState) :
    (st.isOpen = false →
      (openStep st).1.isOpen = true ∧ (openStep st).1.popupInDom = true ∧
        "picker:open" ∈ (openStep st).1.emitted) ∧
    (st.isOpen = true →
      (closeStep st).1.isOpen = false ∧ (closeStep st).1.popupInDom = false) := by
  constructor
  · intro h
    rw [openStep_state st h]
    refine ⟨rfl, rfl, ?_⟩
    simp
  · intro h
    rw [closeStep_state st h]
    exact ⟨rfl, rfl⟩

/-- Witness for C3 at concrete closed and open controllers. -/
theorem open_close_postconditions_witness :
    sampleClosed.isOpen = false ∧
    ((openStep sampleClosed).1.isOpen = true ∧ (openStep sampleClosed).1.popupInDom = true ∧
      "picker:open" ∈ (openStep sampleClosed).1.emitted) ∧
    sampleOpen.isOpen = true ∧
    ((closeStep sampleOpen).1.isOpen = false ∧ (closeStep sampleOpen).1.popupInDom = false) :=
  ⟨by decide, (open_close_postconditions sampleClosed).1 (by decide),
   by decide, (open_close_postconditions sampleOpen).2 (by decide)⟩

/-- C4: `open()` on an open picker and `close()` on a closed picker are
no-ops: the state is unchanged and no actions (DOM changes or event
emissions) are performed. -/
theorem open_close_idempotent (st : ControllerState) :
    (st.isOpen = true → openStep st = (st, [])) ∧
    (st.isOpen = false → closeStep st = (st, [])) :=
  ⟨openStep_of_open st, closeStep_of_closed st⟩

/-- Witness for C4 at concrete open and closed controllers. -/
theorem open_close_idempotent_witness :
    (sampleOpen.isOpen = true ∧ openStep sampleOpen = (sampleOpen, [])) ∧
    (sampleClosed.isOpen = false ∧ closeStep sampleClosed = (sampleClosed, [])) :=
  ⟨⟨by decide, (open_close_idempotent sampleOpen).1 (by decide)⟩,
   ⟨by decide, (open_close_idempotent sampleClosed).2 (by decide)⟩⟩

/-- C5: a keydown on the popup element invokes `close()` exactly when the
key is `'Escape'`; any other key leaves the controller state (and the
action trace) unchanged, and the picker ends closed exactly when the key
was Escape or it was already closed. -/
theorem keydown_escape_closes (key : String) (st : ControllerState) :
    (Action.invokeClose ∈ (handleKeydown key st).2 ↔ key = "Escape") ∧
    (key ≠ "Escape" → handleKeydown key st = (st, [])) ∧
    ((handleKeydown key st).1.isOpen = false ↔ (key = "Escape" ∨ st.isOpen = false)) := by
  by_cases hk : key = "Escape"
  · subst hk
    refine ⟨?_, fun hne => absurd rfl hne, ?_⟩
    · rw [handleKeydown, if_pos rfl]
      show Action.invokeClose ∈ Action.invokeClose :: (closeStep st).2 ↔ _
      exact iff_of_true (List.mem_cons_self _ _) rfl
    · rw [handleKeydown, if_pos rfl]
      show (closeStep st).1.isOpen = false ↔ _
      exact iff_of_true (closeStep_isOpen st) (Or.inl rfl)
  · refine ⟨?_, fun _ => ?_, ?_⟩
    · rw [handleKeydown, if_neg hk]
      show Action.invokeClose ∈ ([] : List Action) ↔ _
      exact iff_of_false (List.not_mem_nil _) hk
    · rw [handleKeydown, if_neg hk]
    · rw [handleKeydown, if_neg hk]
      show st.isOpen = false ↔ _
      exact (or_iff_right hk).symm

/-- Witness for C5: Escape closes an open picker, another key is a no-op. -/
theorem keydown_escape_closes_witness :
    Action.invokeClose ∈ (handleKeydown "Escape" sampleOpen).2 ∧
    "a" ≠ "Escape" ∧ handleKeydown "a" sampleOpen = (sampleOpen, []) :=
  ⟨(keydown_escape_closes "Escape" sampleOpen).1.mpr rfl,
   by decide,
   (keydown_escape_closes "a" sampleOpen).2.1 (by decide)⟩

/-- C6: in every reachable controller state at most one positioning
installation is active, and none is active while the picker is closed;
`setPosition` invokes the previous cleanup (if any) before installing a
new positioning, and `close()` removes the popup before invoking the
positioning cleanup. -/
theorem positioning_single_active (opts : ControllerOptions) (ops : List Op)
    (s : ControllerState) :
    ((runOps opts ops).activeInstalls.length ≤ 1) ∧
    ((runOps opts ops).isOpen = false → (runOps opts ops).activeInstalls = []) ∧
    ((setPositionStep s).2 =
      [Action.invokePositionCleanup s.positionCleanupField,
       Action.installPosition s.nextInstallId]) ∧
    (s.isOpen = true →
      (closeStep s).2 =
        [Action.setIsOpen false, Action.awaitAnimations (runningAnimIds s),
         Action.startAnimation "hide-picker" [], Action.removePopup, Action.pickerReset,
         Action.invokePositionCleanup s.positionCleanupField]) := by
  have hinv := inv_runOps opts ops
  refine ⟨?_, ?_, rfl, closeStep_trace s⟩
  · rcases hinv.1 with ⟨_, hact⟩ | ⟨_, i, hact, _⟩ <;> rw [hact] <;> simp
  · intro hc
    rcases hinv.1 with ⟨_, hact⟩ | ⟨ho, _⟩
    · exact hact
    · rw [hc] at ho; cases ho

/-- Witness for C6: opening then closing leaves no active positioning. -/
theorem positioning_single_active_witness :
    (runOps sampleOpts [Op.openOp, Op.closeOp]).isOpen = false ∧
    (runOps sampleOpts [Op.openOp, Op.closeOp]).activeInstalls = [] ∧
    sampleOpen.isOpen = true ∧
    (closeStep sampleOpen).2 =
      [Action.setIsOpen false, Action.awaitAnimations (runningAnimIds sampleOpen),
       Action.startAnimation "hide-picker" [], Action.removePopup, Action.pickerReset,
       Action.invokePositionCleanup sampleOpen.positionCleanupField] :=
  ⟨by decide,
   (positioning_single_active sampleOpts [Op.openOp, Op.closeOp] sampleOpen).2.1 (by decide),
   by decide,
   (positioning_single_active sampleOpts [Op.openOp, Op.closeOp] sampleOpen).2.2.2 (by decide)⟩

/-- C10: from every reachable controller state, `destroy()` closes the
picker first when it is open (so afterwards `isOpen` is false and the
popup is out of the DOM), then removes the document click listener,
destroys the inner picker, and removes all external event listeners;
afterwards a document click is a no-op and emitting an external event
invokes no callback. -/
theorem destroy_postconditions (opts : ControllerOptions) (ops : List Op)
    (ev : ClickEvent) (name : String) :
    ((destroyStep (runOps opts ops)).1.isOpen = false) ∧
    ((destroyStep (runOps opts ops)).1.popupInDom = false) ∧
    ((destroyStep (runOps opts ops)).1.docClickListener = false) ∧
    ((destroyStep (runOps opts ops)).1.pickerDestroyed = true) ∧
    ((destroyStep (runOps opts ops)).1.externalListeners = []) ∧
    (dispatchDocumentClick ev (destroyStep (runOps opts ops)).1
      = ((destroyStep (runOps opts ops)).1, [])) ∧
    (emitExternal name (destroyStep (runOps opts ops)).1 = []) ∧
    ((runOps opts ops).isOpen = true →
      (destroyStep (runOps opts ops)).2 =
        (Action.invokeClose :: (closeStep (runOps opts ops)).2)
          ++ [Action.removeDocListener, Action.destroyPicker, Action.removeAllExternal]) ∧
    ((runOps opts ops).isOpen = false →
      (destroyStep (runOps opts ops)).2 =
        [Action.removeDocListener, Action.destroyPicker, Action.removeAllExternal]) := by
  refine ⟨destroyStep_isOpen _, destroyStep_popup _ (inv_runOps opts ops), rfl, rfl, rfl,
    ?_, rfl, destroyStep_trace_open _, destroyStep_trace_closed _⟩
  rw [dispatchDocumentClick, if_neg]
  rw [show (destroyStep (runOps opts ops)).1.docClickListener = false from rfl]
  simp

/-- Witness for C10: destroying an opened controller, and a closed one. -/
theorem destroy_postconditions_witness :
    (destroyStep (runOps sampleOpts [Op.openOp])).1.isOpen = false ∧
    ((runOps sampleOpts [Op.openOp]).isOpen = true ∧
      (destroyStep (runOps sampleOpts [Op.openOp])).2 =
        (Action.invokeClose :: (closeStep (runOps sampleOpts [Op.openOp])).2)
          ++ [Action.removeDocListener, Action.destroyPicker, Action.removeAllExternal]) ∧
    ((runOps sampleOpts []).isOpen = false ∧
      (destroyStep (runOps sampleOpts [])).2 =
        [Action.removeDocListener, Action.destroyPicker, Action.removeAllExternal]) :=
  ⟨(destroy_postconditions sampleOpts [Op.openOp] sampleClick "picker:open").1,
   ⟨by decide,
    (destroy_postconditions sampleOpts [Op.openOp] sampleClick "picker:open").2.2.2.2.2.2.2.1
      (by decide)⟩,
   ⟨by decide,
    (destroy_postconditions sampleOpts [] sampleClick "picker:open").2.2.2.2.2.2.2.2
      (by decide)⟩⟩

/-! ### Claims about the variant popup and options -/

/-- C7: with `n` focusable buttons in the variant popup and focus on
button `i`, ArrowRight moves focus to `(i+1) mod n` and ArrowLeft to
`(i-1+n) mod n`; navigation wraps from the last button to the first and
from the first to the last. -/
theorem variant_navigation_mod (n i : Nat) (hn : 0 < n) (hi : i < n) :
    (variantFocusAfterKey "ArrowRight" n i = (i + 1) % n) ∧
    (variantFocusAfterKey "ArrowLeft" n i = (i + n - 1) % n) ∧
    (variantFocusAfterKey "ArrowRight" n (n - 1) = 0) ∧
    (variantFocusAfterKey "ArrowLeft" n 0 = n - 1) := by
  refine ⟨?_, ?_, ?_, ?_⟩
  · rw [variantFocusAfterKey, if_pos rfl]
    by_cases h : i + 1 < n
    · rw [if_pos h, Nat.mod_eq_of_lt h]
    · have he : i + 1 = n := by omega
      rw [if_neg h, he, Nat.mod_self]
  · rw [variantFocusAfterKey, if_neg (by decide), if_pos rfl]
    by_cases h : i = 0
    · subst h
      rw [if_pos rfl, Nat.zero_add, Nat.mod_eq_of_lt (by omega)]
    · have he : i + n - 1 = (i - 1) + n := by omega
      rw [if_neg h, he, Nat.add_mod_right, Nat.mod_eq_of_lt (by omega)]
  · rw [variantFocusAfterKey, if_pos rfl, if_neg (by omega)]
  · rw [variantFocusAfterKey, if_neg (by decide), if_pos rfl, if_pos rfl]

/-- Witness for C7 with the three buttons of the test record. -/
theorem variant_navigation_mod_witness :
    0 < 3 ∧ 0 < 3 ∧
    ((variantFocusAfterKey "ArrowRight" 3 0 = (0 + 1) % 3) ∧
     (variantFocusAfterKey "ArrowLeft" 3 0 = (0 + 3 - 1) % 3) ∧
     (variantFocusAfterKey "ArrowRight" 3 (3 - 1) = 0) ∧
     (variantFocusAfterKey "ArrowLeft" 3 0 = 3 - 1)) :=
  ⟨by decide, by decide, variant_navigation_mod 3 0 (by decide) (by decide)⟩

/-- C8: the variant popup for a record with `k` skins renders `k + 1`
buttons: the base emoji first, then the `k` variants in the order of the
record's skins array. -/
theorem variant_popup_renders_all (r : EmojiRecord) :
    ((variantPopupButtons r).length = r.skins.length + 1) ∧
    ((variantPopupButtons r)[0]? = some r.emoji) ∧
    (∀ j, j < r.skins.length →
      (variantPopupButtons r)[j + 1]? = Option.map (fun s => s.emoji) r.skins[j]?) := by
  refine ⟨by simp [variantPopupButtons], by simp [variantPopupButtons], ?_⟩
  intro j hj
  simp [variantPopupButtons]

/-- Witness for C8 on the test record. -/
theorem variant_popup_renders_all_witness :
    0 < sampleEmojiRecord.skins.length ∧
    (variantPopupButtons sampleEmojiRecord)[0 + 1]? =
      Option.map (fun s => s.emoji) sampleEmojiRecord.skins[0]? :=
  ⟨by decide, (variant_popup_renders_all sampleEmojiRecord).2.2 0 (by decide)⟩

/-- C9: `getOptions` keeps every caller-supplied property (including a
caller-supplied `rootElement` overriding `document.body`) and fills every
omitted property with its documented default. -/
theorem getOptions_defaults_and_overrides (opts : PartialPickerOptions) :
    ((∀ v, opts.renderer = some v → (getOptions opts).renderer = v) ∧
     (∀ v, opts.theme = some v → (getOptions opts).theme = v) ∧
     (∀ v, opts.animate = some v → (getOptions opts).animate = v) ∧
     (∀ v, opts.showSearch = some v → (getOptions opts).showSearch = v) ∧
     (∀ v, opts.showCategoryTabs = some v → (getOptions opts).showCategoryTabs = v) ∧
     (∀ v, opts.showVariants = some v → (getOptions opts).showVariants = v) ∧
     (∀ v, opts.showRecents = some v → (getOptions opts).showRecents = v) ∧
     (∀ v, opts.showPreview = some v → (getOptions opts).showPreview = v) ∧
     (∀ v, opts.emojisPerRow = some v → (getOptions opts).emojisPerRow = v) ∧
     (∀ v, opts.visibleRows = some v → (getOptions opts).visibleRows = v) ∧
     (∀ v, opts.emojiVersion = some v → (getOptions opts).emojiVersion = v) ∧
     (∀ v, opts.maxRecents = some v → (getOptions opts).maxRecents = v) ∧
     (∀ v, opts.i18n = some v → (getOptions opts).i18n = v) ∧
     (∀ v, opts.locale = some v → (getOptions opts).locale = v) ∧
     (∀ v, opts.custom = some v → (getOptions opts).custom = v) ∧
     (∀ v, opts.rootElement = some v → (getOptions opts).rootElement = v)) ∧
    ((opts.animate = none → (getOptions opts).animate = true) ∧
     (opts.showSearch = none → (getOptions opts).showSearch = true) ∧
     (opts.showCategoryTabs = none → (getOptions opts).showCategoryTabs = true) ∧
     (opts.showVariants = none → (getOptions opts).showVariants = true) ∧
     (opts.showRecents = none → (getOptions opts).showRecents = true) ∧
     (opts.showPreview = none → (getOptions opts).showPreview = true) ∧
     (opts.emojisPerRow = none → (getOptions opts).emojisPerRow = 8) ∧
     (opts.visibleRows = none → (getOptions opts).visibleRows = 6) ∧
     (opts.emojiVersion = none → (getOptions opts).emojiVersion = EmojiVersionOpt.auto) ∧
     (opts.maxRecents = none → (getOptions opts).maxRecents = 50) ∧
     (opts.locale = none → (getOptions opts).locale = "en") ∧
     (opts.custom = none → (getOptions opts).custom = []) ∧
     (opts.rootElement = none → (getOptions opts).rootElement = DomElement.documentBody)) := by
  refine ⟨⟨?_, ?_, ?_, ?_, ?_, ?_, ?_, ?_, ?_, ?_, ?_, ?_, ?_, ?_, ?_, ?_⟩,
    ?_, ?_, ?_, ?_, ?_, ?_, ?_, ?_, ?_, ?_, ?_, ?_, ?_⟩ <;>
    (intros; simp_all [getOptions])

/-- Witness for C9: a partial options object supplying `animate`,
`emojisPerRow` and `rootElement`, with the rest defaulted. -/
theorem getOptions_defaults_and_overrides_witness :
    (samplePartialOptions.animate = some false ∧
      (getOptions samplePartialOptions).animate = false) ∧
    (samplePartialOptions.emojisPerRow = some 10 ∧
      (getOptions samplePartialOptions).emojisPerRow = 10) ∧
    (samplePartialOptions.rootElement = some (DomElement.element 5) ∧
      (getOptions samplePartialOptions).rootElement = DomElement.element 5) ∧
    (samplePartialOptions.maxRecents = none ∧
      (getOptions samplePartialOptions).maxRecents = 50) :=
  ⟨⟨by decide, (getOptions_defaults_and_overrides samplePartialOptions).1.2.2.1
      false (by decide)⟩,
   ⟨by decide, (getOptions_defaults_and_overrides samplePartialOptions).1.2.2.2.2.2.2.2.2.1
      10 (by decide)⟩,
   ⟨by decide, (getOptions_defaults_and_overrides samplePartialOptions).1.2.2.2.2.2.2.2.2.2.2.2.2.2.2.2
      (DomElement.element 5) (by decide)⟩,
   ⟨by decide, (getOptions_defaults_and_overrides samplePartialOptions).2.2.2.2.2.2.2.2.2.2.1
      (by decide)⟩⟩

end Picmo
